import Mathlib

/-!
# BibleTime search dialog: `CSearchDialog::startSearch` and `CSearchDialog::openDialog`

A shallow embedding of `src/frontend/searchdialog/csearchdialog.cpp`.

The two member functions are written as programs in a small effect monad `Eff`
that records, in call order, every call made on a collaborator (the search
options area, the result area, the message boxes, the index dialog, the search
engine, the window itself) and that carries a C++ exception in flight.  The
values returned by collaborators whose code is not part of the sources are
supplied by a `Collaborators` record, so every theorem holds for all of them.
-/

namespace Search

/-! ## Qt value types and the library functions used by the dialog -/

/-- A `QString`, as the sequence of its characters. -/
abbrev QString := String

/-- Qt `QChar::isSpace`: the ASCII characters tab, line feed, vertical tab, form
feed, carriage return and space, then U+0085, U+00A0 and the characters of the
Unicode separator categories Zs, Zl and Zp. -/
def QChar_isSpace (c : Char) : Bool :=
  let u := c.toNat
  u == 0x20 || (0x09 ≤ u && u ≤ 0x0d) || u == 0x85 || u == 0xa0 ||
  u == 0x1680 || (0x2000 ≤ u && u ≤ 0x200a) || u == 0x2028 || u == 0x2029 ||
  u == 0x202f || u == 0x205f || u == 0x3000

/-- A `QRegExp` that is an alternation of literal words, as the list of the
words.  This is the only shape of regular expression the dialog builds. -/
abbrev QRegExp := List (List Char)

/-- Length of the match of the regular expression anchored at the head of `s`:
the length of the first alternative that `s` starts with, if any. -/
def QRegExp.matchedLength (rx : QRegExp) (s : List Char) : Option Nat :=
  (rx.find? (fun w => w.isPrefixOf s)).map List.length

/-- Worker of `QString::replace(QRegExp, QString)`: scans left to right; `skip`
is the number of characters that still belong to the match being replaced.
Matches are searched from the end of the previous match (non-overlapping, the
replacement text is never rescanned).  An alternative of length zero never
counts as a match. -/
def QString_replaceAux (rx : QRegExp) (after : List Char) : Nat → List Char → List Char
  | _, [] => []
  | skip + 1, _ :: cs => QString_replaceAux rx after skip cs
  | 0, c :: cs =>
    match rx.matchedLength (c :: cs) with
    | some (n + 1) => after ++ QString_replaceAux rx after n cs
    | _ => c :: QString_replaceAux rx after 0 cs

/-- Qt `QString::replace(const QRegExp &rx, const QString &after)`: replaces
every occurrence of the regular expression with `after`. -/
def QString_replace (s : QString) (rx : QRegExp) (after : QString) : QString :=
  String.mk (QString_replaceAux rx after.data 0 s.data)

/-- Worker of `QString::simplified` on a text without leading whitespace:
`pending` tells that a run of whitespace has been read since the last character
that was kept. -/
def QString_simplifiedAux : Bool → List Char → List Char
  | _, [] => []
  | pending, c :: cs =>
    if QChar_isSpace c then QString_simplifiedAux true cs
    else (if pending then [' ', c] else [c]) ++ QString_simplifiedAux false cs

/-- Qt `QString::simplified`: whitespace removed from the start and the end, and
each run of internal whitespace replaced with a single space. -/
def QString_simplified (s : QString) : QString :=
  String.mk (QString_simplifiedAux false (s.data.dropWhile QChar_isSpace))

/-- Qt `QString::isEmpty`. -/
def QString_isEmpty (s : QString) : Bool := s.data.isEmpty

/-- Qt `QStringList::join(separator)`. -/
def QStringList_join (l : List QString) (separator : QString) : QString :=
  separator.intercalate l

/-- Qt `QMessageBox::Yes`. -/
def QMessageBox_Yes : Nat := 0x00004000
/-- Qt `QMessageBox::No`. -/
def QMessageBox_No : Nat := 0x00010000
/-- Qt `QMessageBox::Default`, the flag of the old message box interface. -/
def QMessageBox_Default : Nat := 0x00000100

/-- Bit pattern of a C++ `int` (32 bit, two's complement). -/
def intBits (r : Int) : Nat := (r % 2 ^ 32).toNat

/-- Qt `Qt::CursorShape`, the two shapes the dialog sets. -/
inductive CursorShape
  | ArrowCursor
  | WaitCursor
  deriving DecidableEq, Repr

/-! ## Types of the backend -/

/-- A module, `CSwordModuleInfo`, as far as the dialog looks at it: the values
its accessors `name()` and `hasIndex()` return while `startSearch` runs. -/
structure CSwordModuleInfo where
  name : QString
  hasIndex : Bool
  deriving DecidableEq, Repr

/-- The list type `BtConstModuleList` of `btmodulelist.h`, a `QList` of modules. -/
abbrev BtConstModuleList := List CSwordModuleInfo

/-- The enumeration `CSwordModuleSearch::SearchType`, as its integer value.  The
dialog only hands it on to `prepareSearchText`. -/
abbrev SearchType := Nat

/-- The search scope `sword::ListKey`, as the list of its key ranges.  The
dialog only hands it on to the search engine. -/
abbrev ListKey := List QString

/-- One entry of `CSwordModuleSearch::Results`: a module and the keys found in it. -/
structure ModuleSearchResult where
  module : CSwordModuleInfo
  results : List QString
  deriving DecidableEq, Repr

/-- The container `CSwordModuleSearch::Results`. -/
abbrev Results := List ModuleSearchResult

/-- What a C++ `catch (...)` can catch: an exception derived from
`std::exception`, with the text of its `what()`, or anything else. -/
inductive Fault
  | stdException (what : QString)
  | other
  deriving DecidableEq, Repr

/-! ## Calls on collaborators -/

/-- A call made by the dialog on one of its collaborators, with its arguments.
`showWarning title format reason` stands for
`message::showWarning(this, title, format.arg(reason))`. -/
inductive Event
  | addToHistory (text : QString)
  | showQuestion (title text : QString) (buttons defaultButton : Nat)
  | indexAllModules (modules : List CSwordModuleInfo)
  | setEnabled (enabled : Bool)
  | setCursor (shape : CursorShape)
  | search (searchText : QString) (modules : BtConstModuleList) (scope : ListKey)
  | showWarning (title format reason : QString)
  | setSearchResult (result : Results)
  | resultAreaReset
  | raise
  | activateWindow
  | optionsAreaReset
  | setModules (modules : BtConstModuleList)
  | chooseModules
  | setSearchText (text : QString)
  | showWindow
  deriving DecidableEq, Repr

/-- The state of the search options area `BtSearchOptionsArea` that the dialog
reads through the accessors `searchText()`, `searchType()`, `modules()` and
`searchScope()`. -/
structure BtSearchOptionsArea where
  searchText : QString
  searchType : SearchType
  modules : BtConstModuleList
  searchScope : ListKey
  deriving DecidableEq, Repr

/-- The dialog `CSearchDialog`: its search options area and whether the window
is hidden.  The result area `m_searchResultArea` is only called, never read. -/
structure CSearchDialog where
  m_searchOptionsArea : BtSearchOptionsArea
  isHidden : Bool
  deriving DecidableEq, Repr

/-- The collaborators whose code is outside the sources, as the values they
return: the translation lookup `tr`, `CSwordModuleSearch::prepareSearchText`,
the answer of `message::showQuestion`, the success flag of
`BtModuleIndexDialog::indexAllModules`, the outcome of
`CSwordModuleSearch::search` (a result or a thrown exception), the state of a
freshly constructed dialog, and the state changes of the search options area
made by its `reset`, `setModules`, `chooseModules` and `setSearchText`. -/
structure Collaborators where
  tr : QString → QString
  prepareSearchText : QString → SearchType → QString
  showQuestion : QString → QString → Nat → Nat → Int
  indexAllModules : List CSwordModuleInfo → Bool
  search : QString → BtConstModuleList → ListKey → Except Fault Results
  newDialog : CSearchDialog
  optionsAreaReset : BtSearchOptionsArea → BtSearchOptionsArea
  setModules : BtConstModuleList → BtSearchOptionsArea → BtSearchOptionsArea
  chooseModules : BtSearchOptionsArea → BtSearchOptionsArea
  setSearchText : QString → BtSearchOptionsArea → BtSearchOptionsArea

/-! ## The effect monad -/

/-- A run of a piece of the program: the calls it made on collaborators, in
order, and how it ended, with a value or with an exception in flight. -/
structure Eff (α : Type) where
  trace : List Event
  result : Except Fault α

/-- A run that makes no call and returns `a`. -/
def Eff.pure {α : Type} (a : α) : Eff α := ⟨[], .ok a⟩

/-- Sequencing: the second part runs only if the first ended with a value. -/
def Eff.bind {α β : Type} (m : Eff α) (f : α → Eff β) : Eff β :=
  match m.result with
  | .ok a => ⟨m.trace ++ (f a).trace, (f a).result⟩
  | .error e => ⟨m.trace, .error e⟩

instance : Monad Eff where
  pure := Eff.pure
  bind := Eff.bind

/-- A call on a collaborator that returns nothing the dialog uses. -/
def call (e : Event) : Eff Unit := ⟨[e], .ok ()⟩

/-- The C++ `try { body } catch (...) { handler }`. -/
def Eff.tryCatchAll {α : Type} (body : Eff α) (handler : Fault → Eff α) : Eff α :=
  match body.result with
  | .ok _ => body
  | .error e => ⟨body.trace ++ (handler e).trace, (handler e).result⟩

/-- The call `message::showQuestion(this, title, text, buttons, defaultButton)`. -/
def message_showQuestion (c : Collaborators) (title text : QString)
    (buttons defaultButton : Nat) : Eff Int :=
  ⟨[.showQuestion title text buttons defaultButton],
   .ok (c.showQuestion title text buttons defaultButton)⟩

/-- The call `BtModuleIndexDialog::indexAllModules(modules)`. -/
def BtModuleIndexDialog_indexAllModules (c : Collaborators)
    (modules : List CSwordModuleInfo) : Eff Bool :=
  ⟨[.indexAllModules modules], .ok (c.indexAllModules modules)⟩

/-- The call `CSwordModuleSearch::search(searchText, modules, scope)`, which
returns the results or throws. -/
def CSwordModuleSearch_search (c : Collaborators) (searchText : QString)
    (modules : BtConstModuleList) (scope : ListKey) : Eff Results :=
  ⟨[.search searchText modules scope], c.search searchText modules scope⟩

/-! ## `CSearchDialog` -/

/-- The regular expression `QRegExp("heading:|footnote:|morph:|strong:")`. -/
def ReservedWords : QRegExp :=
  ["heading:".data, "footnote:".data, "morph:".data, "strong:".data]

/-- The member function `CSearchDialog::modules()`. -/
def CSearchDialog.modules (this : CSearchDialog) : BtConstModuleList :=
  this.m_searchOptionsArea.modules

/-- The member function `CSearchDialog::startSearch()`. -/
def CSearchDialog.startSearch (c : Collaborators) (this : CSearchDialog) : Eff Unit := do
  let originalSearchText := this.m_searchOptionsArea.searchText
  -- first check the search string for errors
  if QString_isEmpty (QString_simplified (QString_replace originalSearchText ReservedWords "")) then
    return
  let searchText := c.prepareSearchText originalSearchText this.m_searchOptionsArea.searchType
  -- Insert search text into history list of combobox
  call (.addToHistory originalSearchText)
  let searchModules := this.modules
  -- Check that we have the indices we need for searching
  let unindexedModules : List CSwordModuleInfo :=
    searchModules.foldl (fun acc m => if !m.hasIndex then acc ++ [m] else acc) []
  if unindexedModules.length > 0 then
    -- Build the list of module names:
    let moduleNameList : List QString :=
      unindexedModules.foldl (fun acc m => acc ++ [m.name]) []
    let moduleNames := "<br><center>" ++ QStringList_join moduleNameList ", " ++ "</center><br>"
    -- Ask the user about unindexed modules:
    let result ← message_showQuestion c (c.tr "Missing indices")
      (c.tr "The following modules need to be indexed before they can be searched in:"
        ++ moduleNames
        ++ c.tr "Indexing could take a long time. Click \"Yes\" to index the modules and start the search, or \"No\" to cancel the search.")
      (QMessageBox_Yes ||| QMessageBox_No) QMessageBox_Yes
    -- User didn't press "Yes":
    if (intBits result &&& (QMessageBox_Yes ||| QMessageBox_Default)) == 0x0 then
      return
    -- Show indexing dialog, and index the modules:
    if !(← BtModuleIndexDialog_indexAllModules c unindexedModules) then
      -- Failed or user cancelled.
      return
  -- Disable the dialog:
  call (.setEnabled false)
  call (.setCursor .WaitCursor)
  -- Execute search:
  let searched : Option Results ←
    Eff.tryCatchAll
      (do
        let r ← CSwordModuleSearch_search c searchText searchModules
                  this.m_searchOptionsArea.searchScope
        pure (some r))
      (fun fault => do
        let msg : QString :=
          match fault with
          | .stdException what => what
          | .other => c.tr "<UNKNOWN EXCEPTION>"
        call (.showWarning (c.tr "Search aborted")
          (c.tr "An internal error occurred while executing your search:<br/><br/>%1") msg)
        -- Re-enable the dialog:
        call (.setEnabled true)
        call (.setCursor .ArrowCursor)
        pure none)
  match searched with
  | none => return
  | some searchResult =>
    -- Display the search results:
    if !searchResult.isEmpty then
      call (.setSearchResult searchResult)
    else
      call .resultAreaReset
    call .raise
    call .activateWindow
    -- Re-enable the dialog:
    call (.setEnabled true)
    call (.setCursor .ArrowCursor)

/-- The member function `CSearchDialog::reset()`. -/
def CSearchDialog.reset (c : Collaborators) (this : CSearchDialog) : Eff CSearchDialog := do
  call .optionsAreaReset
  call .resultAreaReset
  pure { this with m_searchOptionsArea := c.optionsAreaReset this.m_searchOptionsArea }

/-- The member function `CSearchDialog::showModulesSelector()`. -/
def CSearchDialog.showModulesSelector (c : Collaborators) (this : CSearchDialog) :
    Eff CSearchDialog := do
  call .chooseModules
  pure { this with m_searchOptionsArea := c.chooseModules this.m_searchOptionsArea }

/-- The member function `CSearchDialog::setSearchText(searchText)`. -/
def CSearchDialog.setSearchText (c : Collaborators) (searchText : QString)
    (this : CSearchDialog) : Eff CSearchDialog := do
  call (.setSearchText searchText)
  pure { this with m_searchOptionsArea := c.setSearchText searchText this.m_searchOptionsArea }

/-- The static member function `CSearchDialog::openDialog(modules, searchText)`.
The argument `m_staticDialog` is the static pointer of that name, `none` for the
null pointer; the value returned is the dialog it points to afterwards. -/
def CSearchDialog.openDialog (c : Collaborators) (m_staticDialog : Option CSearchDialog)
    (modules : BtConstModuleList) (searchText : QString) : Eff CSearchDialog := do
  let dialog : CSearchDialog :=
    match m_staticDialog with
    | none => c.newDialog
    | some d => d
  let dialog ← dialog.reset c
  let dialog ←
    if modules.length != 0 then do
      call (.setModules modules)
      pure { dialog with m_searchOptionsArea := c.setModules modules dialog.m_searchOptionsArea }
    else
      dialog.showModulesSelector c
  let dialog ← dialog.setSearchText c searchText
  let dialog ←
    if dialog.isHidden then do
      call .showWindow
      pure { dialog with isHidden := false }
    else
      pure dialog
  if modules.length != 0 && !QString_isEmpty searchText then
    dialog.startSearch c
  call .raise
  call .activateWindow
  pure dialog

/-! ## Reading a run -/

/-- The test `startSearch` makes on the search text before anything else: the
text with the reserved words removed and then simplified is empty. -/
def operatorOnly (text : QString) : Bool :=
  QString_isEmpty (QString_simplified (QString_replace text ReservedWords ""))

/-- The modules of a list that have no index, in the order of the list. -/
def unindexed (modules : BtConstModuleList) : List CSwordModuleInfo :=
  modules.filter (fun m => !m.hasIndex)

/-- The text of the consent prompt of `startSearch` for the modules `ms`. -/
def consentText (c : Collaborators) (ms : List CSwordModuleInfo) : QString :=
  c.tr "The following modules need to be indexed before they can be searched in:"
    ++ ("<br><center>" ++ QStringList_join (ms.map (fun m => m.name)) ", " ++ "</center><br>")
    ++ c.tr "Indexing could take a long time. Click \"Yes\" to index the modules and start the search, or \"No\" to cancel the search."

/-- The consent prompt of `startSearch` for the modules `ms`. -/
def consentPrompt (c : Collaborators) (ms : List CSwordModuleInfo) : Event :=
  .showQuestion (c.tr "Missing indices") (consentText c ms)
    (QMessageBox_Yes ||| QMessageBox_No) QMessageBox_Yes

/-- The answer to the consent prompt for the modules `ms`. -/
def consentAnswer (c : Collaborators) (ms : List CSwordModuleInfo) : Int :=
  c.showQuestion (c.tr "Missing indices") (consentText c ms)
    (QMessageBox_Yes ||| QMessageBox_No) QMessageBox_Yes

/-- The text handed to the search engine. -/
def preparedText (c : Collaborators) (this : CSearchDialog) : QString :=
  c.prepareSearchText this.m_searchOptionsArea.searchText this.m_searchOptionsArea.searchType

/-- The reason shown for a fault caught by `startSearch`. -/
def faultReason (c : Collaborators) : Fault → QString
  | .stdException what => what
  | .other => c.tr "<UNKNOWN EXCEPTION>"

/-- The calls `startSearch` makes from disabling the dialog on, once the indices
are there. -/
def executeTrace (c : Collaborators) (this : CSearchDialog) : List Event :=
  [.setEnabled false, .setCursor .WaitCursor,
   .search (preparedText c this) this.modules this.m_searchOptionsArea.searchScope] ++
  match c.search (preparedText c this) this.modules this.m_searchOptionsArea.searchScope with
  | .ok searchResult =>
    [if searchResult.isEmpty then .resultAreaReset else .setSearchResult searchResult,
     .raise, .activateWindow, .setEnabled true, .setCursor .ArrowCursor]
  | .error fault =>
    [.showWarning (c.tr "Search aborted")
       (c.tr "An internal error occurred while executing your search:<br/><br/>%1")
       (faultReason c fault),
     .setEnabled true, .setCursor .ArrowCursor]

/-- The calls of a whole run of `startSearch`, path by path. -/
def startSearchTrace (c : Collaborators) (this : CSearchDialog) : List Event :=
  if operatorOnly this.m_searchOptionsArea.searchText then []
  else
    .addToHistory this.m_searchOptionsArea.searchText ::
    if unindexed this.modules = [] then executeTrace c this
    else
      consentPrompt c (unindexed this.modules) ::
      if intBits (consentAnswer c (unindexed this.modules))
          &&& (QMessageBox_Yes ||| QMessageBox_Default) == 0x0 then []
      else
        .indexAllModules (unindexed this.modules) ::
        if c.indexAllModules (unindexed this.modules) then executeTrace c this else []

/-- The calls `startSearch` makes about indices on a run that reaches the
search engine. -/
def consentTrace (c : Collaborators) (this : CSearchDialog) : List Event :=
  if unindexed this.modules = [] then []
  else [consentPrompt c (unindexed this.modules), .indexAllModules (unindexed this.modules)]

/-- The event is a consent prompt. -/
def Event.isShowQuestion : Event → Bool
  | .showQuestion _ _ _ _ => true
  | _ => false

/-- The event is a request to build indices. -/
def Event.isIndexAllModules : Event → Bool
  | .indexAllModules _ => true
  | _ => false

/-- The event is a call of the search engine. -/
def Event.isSearch : Event → Bool
  | .search _ _ _ => true
  | _ => false

/-- The event ends a search for the user: a result set shown, the result area
reset, or a warning. -/
def Event.isOutcome : Event → Bool
  | .setSearchResult _ => true
  | .resultAreaReset => true
  | .showWarning _ _ _ => true
  | _ => false

/-- The event is a warning shown to the user. -/
def Event.isShowWarning : Event → Bool
  | .showWarning _ _ _ => true
  | _ => false

/-- The event enables or disables the dialog. -/
def Event.isSetEnabled : Event → Bool
  | .setEnabled _ => true
  | _ => false

/-- The dialog `openDialog` works on. -/
def openedDialog (c : Collaborators) (m_staticDialog : Option CSearchDialog) : CSearchDialog :=
  match m_staticDialog with
  | none => c.newDialog
  | some d => d

/-- The dialog as `openDialog` leaves it, which is also the dialog `startSearch`
runs on when `openDialog` calls it. -/
def openDialogState (c : Collaborators) (m_staticDialog : Option CSearchDialog)
    (modules : BtConstModuleList) (searchText : QString) : CSearchDialog :=
  { m_searchOptionsArea :=
      c.setSearchText searchText
        ((if modules.length != 0 then c.setModules modules else c.chooseModules)
          (c.optionsAreaReset (openedDialog c m_staticDialog).m_searchOptionsArea))
    isHidden := false }

/-! ## Sample values -/

/-- A module with an index. -/
def moduleA : CSwordModuleInfo := ⟨"moduleA", true⟩

/-- A module without an index. -/
def moduleB : CSwordModuleInfo := ⟨"moduleB", false⟩

/-- Collaborators that translate nothing, prepare the search text by leaving it
as it is, answer the consent prompt with `answer`, report `built` from the index
build and let the search engine end with `outcome`. -/
def sampleCollaborators (answer : Int) (built : Bool) (outcome : Except Fault Results) :
    Collaborators where
  tr := fun s => s
  prepareSearchText := fun s _ => s
  showQuestion := fun _ _ _ _ => answer
  indexAllModules := fun _ => built
  search := fun _ _ _ => outcome
  newDialog := ⟨⟨"", 0, [], []⟩, true⟩
  optionsAreaReset := fun a => { a with searchText := "" }
  setModules := fun ms a => { a with modules := ms }
  chooseModules := fun a => a
  setSearchText := fun t a => { a with searchText := t }

/-- A visible dialog with the given search text and modules. -/
def sampleDialog (text : QString) (modules : BtConstModuleList) : CSearchDialog :=
  ⟨⟨text, 0, modules, []⟩, false⟩

/-- A result set with three matches in `moduleA` and none in `moduleB`. -/
def sampleResults : Results := [⟨moduleA, ["Rom 3:24", "Eph 2:8", "Tit 2:11"]⟩, ⟨moduleB, []⟩]

/-! ## Lemmas on runs -/

theorem foldl_unindexed (ms acc : List CSwordModuleInfo) :
    ms.foldl (fun acc m => if !m.hasIndex then acc ++ [m] else acc) acc
      = acc ++ unindexed ms := by
  induction ms generalizing acc with
  | nil => simp [unindexed]
  | cons m ms ih =>
    simp only [List.foldl_cons, ih, unindexed, List.filter_cons]
    cases m.hasIndex <;> simp

theorem foldl_names (ms : List CSwordModuleInfo) (acc : List QString) :
    ms.foldl (fun acc m => acc ++ [m.name]) acc = acc ++ ms.map (fun m => m.name) := by
  induction ms generalizing acc with
  | nil => simp
  | cons m ms ih => simp [List.foldl, ih]

@[simp] theorem eff_pure_bind {α β : Type} (a : α) (f : α → Eff β) :
    (pure a >>= f) = f a := by
  show Eff.bind (Eff.pure a) f = f a
  simp [Eff.bind, Eff.pure]

@[simp] theorem eff_call_bind {β : Type} (e : Event) (f : Unit → Eff β) :
    (call e >>= f) = ⟨e :: (f ()).trace, (f ()).result⟩ := by
  show Eff.bind (call e) f = _
  simp [Eff.bind, call]

@[simp] theorem eff_showQuestion_bind {β : Type} (c : Collaborators) (t x : QString) (b d : Nat)
    (f : Int → Eff β) :
    (message_showQuestion c t x b d >>= f)
      = ⟨.showQuestion t x b d :: (f (c.showQuestion t x b d)).trace,
         (f (c.showQuestion t x b d)).result⟩ := by
  show Eff.bind (message_showQuestion c t x b d) f = _
  simp [Eff.bind, message_showQuestion]

@[simp] theorem eff_indexAllModules_bind {β : Type} (c : Collaborators)
    (ms : List CSwordModuleInfo) (f : Bool → Eff β) :
    (BtModuleIndexDialog_indexAllModules c ms >>= f)
      = ⟨.indexAllModules ms :: (f (c.indexAllModules ms)).trace,
         (f (c.indexAllModules ms)).result⟩ := by
  show Eff.bind (BtModuleIndexDialog_indexAllModules c ms) f = _
  simp [Eff.bind, BtModuleIndexDialog_indexAllModules]

@[simp] theorem eff_ok_bind {α β : Type} (l : List Event) (a : α) (f : α → Eff β) :
    ((⟨l, .ok a⟩ : Eff α) >>= f) = ⟨l ++ (f a).trace, (f a).result⟩ := by
  show Eff.bind ⟨l, .ok a⟩ f = _
  simp [Eff.bind]

@[simp] theorem eff_trace_pure {α : Type} (a : α) : (pure a : Eff α).trace = [] := rfl

@[simp] theorem eff_result_pure {α : Type} (a : α) : (pure a : Eff α).result = .ok a := rfl

@[simp] theorem eff_trace_call (e : Event) : (call e).trace = [e] := rfl

@[simp] theorem eff_result_call (e : Event) : (call e).result = .ok () := rfl

/-- Every run of `startSearch` returns to its caller, and the calls it makes are
those of `startSearchTrace`. -/
theorem startSearch_run (c : Collaborators) (this : CSearchDialog) :
    CSearchDialog.startSearch c this = ⟨startSearchTrace c this, .ok ()⟩ := by
  unfold CSearchDialog.startSearch startSearchTrace
  simp only [foldl_unindexed, foldl_names, List.nil_append]
  have hexec : ∀ u : PUnit, (do
          call (Event.setEnabled false)
          call (Event.setCursor CursorShape.WaitCursor)
          let searched ←
            Eff.tryCatchAll (do
                    let r ←
                      CSwordModuleSearch_search c
                          (c.prepareSearchText this.m_searchOptionsArea.searchText
                            this.m_searchOptionsArea.searchType)
                          this.modules this.m_searchOptionsArea.searchScope
                    pure (some r))
                fun fault => do
                call
                    (Event.showWarning (c.tr "Search aborted")
                      (c.tr "An internal error occurred while executing your search:<br/><br/>%1")
                      (match fault with
                      | Fault.stdException what => what
                      | Fault.other => c.tr "<UNKNOWN EXCEPTION>"))
                call (Event.setEnabled true)
                call (Event.setCursor CursorShape.ArrowCursor)
                pure none
          match searched with
            | none => pure u
            | some searchResult =>
              if (!List.isEmpty searchResult) = true then do
                call (Event.setSearchResult searchResult)
                call Event.raise
                call Event.activateWindow
                call (Event.setEnabled true)
                call (Event.setCursor CursorShape.ArrowCursor)
              else do
                call Event.resultAreaReset
                call Event.raise
                call Event.activateWindow
                call (Event.setEnabled true)
                call (Event.setCursor CursorShape.ArrowCursor) : Eff PUnit)
        = ⟨executeTrace c this, .ok ()⟩ := by
    intro u
    simp only [executeTrace, preparedText, eff_call_bind]
    cases hs : c.search
        (c.prepareSearchText this.m_searchOptionsArea.searchText
          this.m_searchOptionsArea.searchType)
        this.modules this.m_searchOptionsArea.searchScope with
    | ok r =>
      cases hr : r.isEmpty <;>
        simp [Bind.bind, Eff.bind, Eff.tryCatchAll, CSwordModuleSearch_search, hs, hr,
          Pure.pure, Eff.pure, call]
    | error f =>
      cases f <;>
        simp [Bind.bind, Eff.bind, Eff.tryCatchAll, CSwordModuleSearch_search, hs,
          Pure.pure, Eff.pure, call, faultReason]
  simp only [eff_pure_bind, hexec, operatorOnly]
  split
  · rfl
  · simp only [eff_call_bind]
    by_cases hu : unindexed this.modules = []
    · simp [hu]
    · have hl : (unindexed this.modules).length > 0 := List.length_pos.mpr hu
      simp only [hl, hu, if_true, if_false, eff_showQuestion_bind, consentAnswer, consentPrompt,
        consentText]
      split
      · rfl
      · simp only [eff_indexAllModules_bind]
        cases hi : c.indexAllModules (unindexed this.modules) <;> simp

theorem unindexed_ne_nil (ms : BtConstModuleList) (h : ∃ m ∈ ms, m.hasIndex = false) :
    unindexed ms ≠ [] := by
  obtain ⟨m, hm, hi⟩ := h
  intro hnil
  have : m ∈ unindexed ms := by simp [unindexed, hm, hi]
  rw [hnil] at this
  exact absurd this (List.not_mem_nil m)

theorem unindexed_eq_nil (ms : BtConstModuleList) (h : ∀ m ∈ ms, m.hasIndex = true) :
    unindexed ms = [] := by
  simp only [unindexed, List.filter_eq_nil_iff]
  intro m hm
  simp [h m hm]

theorem executeTrace_ok (c : Collaborators) (this : CSearchDialog) (r : Results)
    (h : c.search (preparedText c this) this.modules this.m_searchOptionsArea.searchScope
          = .ok r) :
    executeTrace c this =
      [.setEnabled false, .setCursor .WaitCursor,
       .search (preparedText c this) this.modules this.m_searchOptionsArea.searchScope,
       if r.isEmpty then .resultAreaReset else .setSearchResult r,
       .raise, .activateWindow, .setEnabled true, .setCursor .ArrowCursor] := by
  simp [executeTrace, h]

theorem executeTrace_error (c : Collaborators) (this : CSearchDialog) (f : Fault)
    (h : c.search (preparedText c this) this.modules this.m_searchOptionsArea.searchScope
          = .error f) :
    executeTrace c this =
      [.setEnabled false, .setCursor .WaitCursor,
       .search (preparedText c this) this.modules this.m_searchOptionsArea.searchScope,
       .showWarning (c.tr "Search aborted")
         (c.tr "An internal error occurred while executing your search:<br/><br/>%1")
         (faultReason c f),
       .setEnabled true, .setCursor .ArrowCursor] := by
  simp [executeTrace, h]

theorem executeTrace_filter_isShowQuestion (c : Collaborators) (this : CSearchDialog) :
    (executeTrace c this).filter Event.isShowQuestion = [] := by
  unfold executeTrace
  cases c.search (preparedText c this) this.modules this.m_searchOptionsArea.searchScope with
  | ok r => cases r <;> simp [Event.isShowQuestion]
  | error f => simp [Event.isShowQuestion]

theorem executeTrace_filter_isIndexAllModules (c : Collaborators) (this : CSearchDialog) :
    (executeTrace c this).filter Event.isIndexAllModules = [] := by
  unfold executeTrace
  cases c.search (preparedText c this) this.modules this.m_searchOptionsArea.searchScope with
  | ok r => cases r <;> simp [Event.isIndexAllModules]
  | error f => simp [Event.isIndexAllModules]

theorem executeTrace_filter_isSearch (c : Collaborators) (this : CSearchDialog) :
    (executeTrace c this).filter Event.isSearch
      = [.search (preparedText c this) this.modules this.m_searchOptionsArea.searchScope] := by
  unfold executeTrace
  cases c.search (preparedText c this) this.modules this.m_searchOptionsArea.searchScope with
  | ok r => cases r <;> simp [Event.isSearch]
  | error f => simp [Event.isSearch]

theorem search_mem_executeTrace (c : Collaborators) (this : CSearchDialog) (t : QString)
    (ms : BtConstModuleList) (s : ListKey) (h : Event.search t ms s ∈ executeTrace c this) :
    t = preparedText c this ∧ ms = this.modules ∧ s = this.m_searchOptionsArea.searchScope := by
  have h2 : Event.search t ms s ∈ (executeTrace c this).filter Event.isSearch :=
    List.mem_filter.mpr ⟨h, rfl⟩
  rw [executeTrace_filter_isSearch] at h2
  simpa using h2

/-- A run of `startSearch` that calls the search engine has a search text that
is not operator-only, calls the engine with the prepared text, the modules and
the scope of the dialog, and consists of the history entry, the calls about
indices and the calls of `executeTrace`. -/
theorem search_mem_startSearchTrace (c : Collaborators) (this : CSearchDialog) (t : QString)
    (ms : BtConstModuleList) (s : ListKey) (h : Event.search t ms s ∈ startSearchTrace c this) :
    operatorOnly this.m_searchOptionsArea.searchText = false ∧
    (t = preparedText c this ∧ ms = this.modules ∧ s = this.m_searchOptionsArea.searchScope) ∧
    startSearchTrace c this
      = .addToHistory this.m_searchOptionsArea.searchText ::
          (consentTrace c this ++ executeTrace c this) := by
  unfold startSearchTrace at h ⊢
  unfold consentTrace
  split at h
  · simp at h
  · next hq =>
    simp only [Bool.not_eq_true] at hq
    simp only [hq, Bool.false_eq_true, if_false]
    simp only [List.mem_cons, reduceCtorEq, false_or] at h
    refine ⟨trivial, ?_⟩
    split at h
    · next hu => simp only [hu, if_true, List.nil_append]; exact ⟨search_mem_executeTrace _ _ _ _ _ h, trivial⟩
    · next hu =>
      simp only [hu, if_false]
      simp only [consentPrompt, List.mem_cons, reduceCtorEq, false_or] at h
      split at h
      · simp at h
      · next hb =>
        simp only [List.mem_cons, reduceCtorEq, false_or] at h
        split at h
        · next hi =>
          refine ⟨search_mem_executeTrace _ _ _ _ _ h, ?_⟩
          simp only [hb, hi, if_true, if_false, Bool.false_eq_true, List.cons_append,
            List.nil_append]
        · simp at h

/-- Every run of `openDialog` returns the dialog of `openDialogState`; its calls
are the reset, the modules set or the selector shown, the search text set, the
window shown if it was hidden, a run of `startSearch` if there are modules and a
search text, and the window raised and activated. -/
theorem openDialog_run (c : Collaborators) (m_staticDialog : Option CSearchDialog)
    (modules : BtConstModuleList) (searchText : QString) :
    CSearchDialog.openDialog c m_staticDialog modules searchText =
      ⟨[.optionsAreaReset, .resultAreaReset,
        if modules.length != 0 then .setModules modules else .chooseModules,
        .setSearchText searchText] ++
       (if (openedDialog c m_staticDialog).isHidden then [.showWindow] else []) ++
       (if modules.length != 0 && !QString_isEmpty searchText then
          startSearchTrace c (openDialogState c m_staticDialog modules searchText)
        else []) ++
       [.raise, .activateWindow],
       .ok (openDialogState c m_staticDialog modules searchText)⟩ := by
  unfold CSearchDialog.openDialog
  simp only [CSearchDialog.reset, CSearchDialog.showModulesSelector, CSearchDialog.setSearchText,
    startSearch_run, openDialogState, openedDialog]
  cases m_staticDialog <;>
    cases hm : (modules.length != 0) <;>
    cases ht : QString_isEmpty searchText <;>
    simp <;> split <;> simp_all

theorem consentTrace_filter_isOutcome (c : Collaborators) (this : CSearchDialog) :
    (consentTrace c this).filter Event.isOutcome = [] := by
  unfold consentTrace
  split <;> simp [Event.isOutcome, consentPrompt]

theorem consentTrace_filter_isSearch (c : Collaborators) (this : CSearchDialog) :
    (consentTrace c this).filter Event.isSearch = [] := by
  unfold consentTrace
  split <;> simp [Event.isSearch, consentPrompt]

/-- A run of `startSearch` on a search text that is not operator-only, with
the indices there or built after consent, is the history entry, the calls about
indices and the calls of `executeTrace`. -/
theorem startSearchTrace_executes (c : Collaborators) (this : CSearchDialog)
    (hq : operatorOnly this.m_searchOptionsArea.searchText = false)
    (hidx : unindexed this.modules = [] ∨
      (intBits (consentAnswer c (unindexed this.modules))
          &&& (QMessageBox_Yes ||| QMessageBox_Default) ≠ 0 ∧
        c.indexAllModules (unindexed this.modules) = true)) :
    startSearchTrace c this
      = .addToHistory this.m_searchOptionsArea.searchText ::
          (consentTrace c this ++ executeTrace c this) := by
  unfold startSearchTrace consentTrace
  simp only [hq, Bool.false_eq_true, if_false]
  by_cases hu : unindexed this.modules = []
  · simp only [hu, if_true, List.nil_append]
  · rcases hidx with h | ⟨hb, hi⟩
    · exact absurd h hu
    · have hb2 : ¬ ((intBits (consentAnswer c (unindexed this.modules))
          &&& (QMessageBox_Yes ||| QMessageBox_Default) == 0x0) = true) := by
        simpa using hb
      simp only [hu, hb2, hi, if_true, if_false, Bool.false_eq_true, List.cons_append,
        List.nil_append]

theorem consentTrace_filter_isSetEnabled (c : Collaborators) (this : CSearchDialog) :
    (consentTrace c this).filter Event.isSetEnabled = [] := by
  unfold consentTrace
  split <;> simp [Event.isSetEnabled, consentPrompt]

theorem executeTrace_filter_isOutcome_length (c : Collaborators) (this : CSearchDialog) :
    ((executeTrace c this).filter Event.isOutcome).length = 1 := by
  unfold executeTrace
  cases c.search (preparedText c this) this.modules this.m_searchOptionsArea.searchScope with
  | ok r => cases r <;> simp [Event.isOutcome]
  | error f => simp [Event.isOutcome]

theorem executeTrace_filter_isSetEnabled (c : Collaborators) (this : CSearchDialog) :
    (executeTrace c this).filter Event.isSetEnabled
      = [.setEnabled false, .setEnabled true] := by
  unfold executeTrace
  cases c.search (preparedText c this) this.modules this.m_searchOptionsArea.searchScope with
  | ok r => cases r <;> simp [Event.isSetEnabled]
  | error f => simp [Event.isSetEnabled]

theorem executeTrace_ends_enabled (c : Collaborators) (this : CSearchDialog) :
    ∃ earlier, executeTrace c this
      = earlier ++ [.setEnabled true, .setCursor .ArrowCursor] := by
  unfold executeTrace
  cases c.search (preparedText c this) this.modules this.m_searchOptionsArea.searchScope with
  | ok r =>
    exact ⟨[.setEnabled false, .setCursor .WaitCursor,
      .search (preparedText c this) this.modules this.m_searchOptionsArea.searchScope,
      if r.isEmpty then .resultAreaReset else .setSearchResult r,
      .raise, .activateWindow], rfl⟩
  | error f =>
    exact ⟨[.setEnabled false, .setCursor .WaitCursor,
      .search (preparedText c this) this.modules this.m_searchOptionsArea.searchScope,
      .showWarning (c.tr "Search aborted")
        (c.tr "An internal error occurred while executing your search:<br/><br/>%1")
        (faultReason c f)], rfl⟩

/-! ## The claims -/

/-- C1: if the search text, with the reserved words `heading:`, `footnote:`,
`morph:` and `strong:` removed and then simplified, is empty, then `startSearch`
returns without a single call on a collaborator: nothing is added to the
history, no consent prompt is shown, no index build is started, the search
engine is not called, and the result area and the warning box are left alone. -/
theorem startSearch_operatorOnly_noop (c : Collaborators) (this : CSearchDialog)
    (h : QString_isEmpty (QString_simplified
          (QString_replace this.m_searchOptionsArea.searchText ReservedWords "")) = true) :
    (CSearchDialog.startSearch c this).trace = [] ∧
    (CSearchDialog.startSearch c this).result = .ok () := by
  rw [startSearch_run]
  have h2 : operatorOnly this.m_searchOptionsArea.searchText = true := h
  simp [startSearchTrace, h2]

theorem startSearch_operatorOnly_noop_witness :
    QString_isEmpty (QString_simplified
      (QString_replace
        (sampleDialog "strong:" [moduleA, moduleB]).m_searchOptionsArea.searchText
        ReservedWords "")) = true ∧
    (CSearchDialog.startSearch (sampleCollaborators 0x4000 true (.ok sampleResults))
      (sampleDialog "strong:" [moduleA, moduleB])).trace = [] ∧
    (CSearchDialog.startSearch (sampleCollaborators 0x4000 true (.ok sampleResults))
      (sampleDialog "strong:" [moduleA, moduleB])).result = .ok () :=
  ⟨by decide,
   startSearch_operatorOnly_noop (sampleCollaborators 0x4000 true (.ok sampleResults))
     (sampleDialog "strong:" [moduleA, moduleB]) (by decide)⟩

/-- C2: for a search text that is not operator-only and a module list with at
least one module without an index, `startSearch` shows the consent prompt
exactly once, and the names the prompt lists are the names of the modules
without an index, in the order of the module list. -/
theorem startSearch_consent_prompt_once (c : Collaborators) (this : CSearchDialog)
    (hq : operatorOnly this.m_searchOptionsArea.searchText = false)
    (hm : ∃ m ∈ this.modules, m.hasIndex = false) :
    (CSearchDialog.startSearch c this).trace.filter Event.isShowQuestion =
      [.showQuestion (c.tr "Missing indices")
        (c.tr "The following modules need to be indexed before they can be searched in:"
          ++ ("<br><center>"
              ++ QStringList_join
                  ((this.modules.filter (fun m => !m.hasIndex)).map (fun m => m.name)) ", "
              ++ "</center><br>")
          ++ c.tr "Indexing could take a long time. Click \"Yes\" to index the modules and start the search, or \"No\" to cancel the search.")
        (QMessageBox_Yes ||| QMessageBox_No) QMessageBox_Yes] := by
  rw [startSearch_run]
  have hu := unindexed_ne_nil this.modules hm
  simp only [startSearchTrace, hq, hu, if_false, Bool.false_eq_true]
  have hp : consentPrompt c (unindexed this.modules) =
      .showQuestion (c.tr "Missing indices")
        (c.tr "The following modules need to be indexed before they can be searched in:"
          ++ ("<br><center>"
              ++ QStringList_join
                  ((this.modules.filter (fun m => !m.hasIndex)).map (fun m => m.name)) ", "
              ++ "</center><br>")
          ++ c.tr "Indexing could take a long time. Click \"Yes\" to index the modules and start the search, or \"No\" to cancel the search.")
        (QMessageBox_Yes ||| QMessageBox_No) QMessageBox_Yes := rfl
  rw [← hp]
  have he := executeTrace_filter_isShowQuestion c this
  split
  · simp [Event.isShowQuestion, consentPrompt]
  · split
    · simp only [List.filter_cons, Event.isShowQuestion, consentPrompt, he, if_true, if_false,
        Bool.false_eq_true]
    · simp [Event.isShowQuestion, consentPrompt]

theorem startSearch_consent_prompt_once_witness :
    operatorOnly (sampleDialog "grace" [moduleB, moduleA, ⟨"moduleC", false⟩]).m_searchOptionsArea.searchText
      = false ∧
    (∃ m ∈ (sampleDialog "grace" [moduleB, moduleA, ⟨"moduleC", false⟩]).modules,
      m.hasIndex = false) ∧
    (CSearchDialog.startSearch (sampleCollaborators 0x4000 true (.ok sampleResults))
        (sampleDialog "grace" [moduleB, moduleA, ⟨"moduleC", false⟩])).trace.filter
      Event.isShowQuestion =
      [.showQuestion "Missing indices"
        ("The following modules need to be indexed before they can be searched in:"
          ++ ("<br><center>" ++ QStringList_join ["moduleB", "moduleC"] ", " ++ "</center><br>")
          ++ "Indexing could take a long time. Click \"Yes\" to index the modules and start the search, or \"No\" to cancel the search.")
        (QMessageBox_Yes ||| QMessageBox_No) QMessageBox_Yes] :=
  ⟨by decide, ⟨moduleB, by decide, rfl⟩,
   startSearch_consent_prompt_once (sampleCollaborators 0x4000 true (.ok sampleResults))
     (sampleDialog "grace" [moduleB, moduleA, ⟨"moduleC", false⟩]) (by decide)
     ⟨moduleB, by decide, rfl⟩⟩

/-- C3: for a search text that is not operator-only and a module list in which
every module has an index, `startSearch` shows no consent prompt and requests no
index build: after the history entry it disables the dialog and calls the search
engine. -/
theorem startSearch_all_indexed (c : Collaborators) (this : CSearchDialog)
    (hq : operatorOnly this.m_searchOptionsArea.searchText = false)
    (hm : ∀ m ∈ this.modules, m.hasIndex = true) :
    (∃ rest, (CSearchDialog.startSearch c this).trace =
      [.addToHistory this.m_searchOptionsArea.searchText,
       .setEnabled false, .setCursor .WaitCursor,
       .search
         (c.prepareSearchText this.m_searchOptionsArea.searchText
           this.m_searchOptionsArea.searchType)
         this.modules this.m_searchOptionsArea.searchScope] ++ rest) ∧
    (CSearchDialog.startSearch c this).trace.filter Event.isShowQuestion = [] ∧
    (CSearchDialog.startSearch c this).trace.filter Event.isIndexAllModules = [] := by
  rw [startSearch_run]
  have hu := unindexed_eq_nil this.modules hm
  simp only [startSearchTrace, hq, hu, if_true, if_false, Bool.false_eq_true]
  refine ⟨?_, ?_, ?_⟩
  · unfold executeTrace preparedText
    exact ⟨_, rfl⟩
  · simp only [List.filter_cons, Event.isShowQuestion, executeTrace_filter_isShowQuestion,
      if_false, Bool.false_eq_true]
  · simp only [List.filter_cons, Event.isIndexAllModules, executeTrace_filter_isIndexAllModules,
      if_false, Bool.false_eq_true]

theorem startSearch_all_indexed_witness :
    operatorOnly (sampleDialog "strong:G5485 grace" [moduleA]).m_searchOptionsArea.searchText
      = false ∧
    (∀ m ∈ (sampleDialog "strong:G5485 grace" [moduleA]).modules, m.hasIndex = true) ∧
    ((∃ rest, (CSearchDialog.startSearch (sampleCollaborators 0 false (.ok sampleResults))
        (sampleDialog "strong:G5485 grace" [moduleA])).trace =
      [.addToHistory (sampleDialog "strong:G5485 grace" [moduleA]).m_searchOptionsArea.searchText,
       .setEnabled false, .setCursor .WaitCursor,
       .search
         ((sampleCollaborators 0 false (.ok sampleResults)).prepareSearchText
           (sampleDialog "strong:G5485 grace" [moduleA]).m_searchOptionsArea.searchText
           (sampleDialog "strong:G5485 grace" [moduleA]).m_searchOptionsArea.searchType)
         (sampleDialog "strong:G5485 grace" [moduleA]).modules
         (sampleDialog "strong:G5485 grace" [moduleA]).m_searchOptionsArea.searchScope] ++ rest) ∧
     (CSearchDialog.startSearch (sampleCollaborators 0 false (.ok sampleResults))
        (sampleDialog "strong:G5485 grace" [moduleA])).trace.filter Event.isShowQuestion = [] ∧
     (CSearchDialog.startSearch (sampleCollaborators 0 false (.ok sampleResults))
        (sampleDialog "strong:G5485 grace" [moduleA])).trace.filter Event.isIndexAllModules
        = []) :=
  ⟨by decide, by decide,
   startSearch_all_indexed (sampleCollaborators 0 false (.ok sampleResults))
     (sampleDialog "strong:G5485 grace" [moduleA]) (by decide) (by decide)⟩

/-- C5, as amended: when consent is given and the index build reports failure,
`startSearch` returns right after the build: it never calls the search engine,
delivers no result, and shows no warning of its own. -/
theorem startSearch_index_build_failed (c : Collaborators) (this : CSearchDialog) (r : Int)
    (hq : operatorOnly this.m_searchOptionsArea.searchText = false)
    (hm : ∃ m ∈ this.modules, m.hasIndex = false)
    (hr : ∀ title text buttons defaultButton,
      c.showQuestion title text buttons defaultButton = r)
    (hmask : intBits r &&& (QMessageBox_Yes ||| QMessageBox_Default) ≠ 0)
    (hfail : c.indexAllModules (this.modules.filter (fun m => !m.hasIndex)) = false) :
    (CSearchDialog.startSearch c this).trace =
      [.addToHistory this.m_searchOptionsArea.searchText,
       consentPrompt c (this.modules.filter (fun m => !m.hasIndex)),
       .indexAllModules (this.modules.filter (fun m => !m.hasIndex))] ∧
    (∀ e ∈ (CSearchDialog.startSearch c this).trace,
      e.isSearch = false ∧ e.isOutcome = false) ∧
    (CSearchDialog.startSearch c this).result = .ok () := by
  rw [startSearch_run]
  have hu := unindexed_ne_nil this.modules hm
  have ha : ¬ ((intBits (consentAnswer c (unindexed this.modules))
      &&& (QMessageBox_Yes ||| QMessageBox_Default) == 0x0) = true) := by
    rw [consentAnswer, hr]; simpa using hmask
  have hf : c.indexAllModules (unindexed this.modules) = false := hfail
  have ht : startSearchTrace c this =
      [.addToHistory this.m_searchOptionsArea.searchText,
       consentPrompt c (this.modules.filter (fun m => !m.hasIndex)),
       .indexAllModules (this.modules.filter (fun m => !m.hasIndex))] := by
    simp only [startSearchTrace, hq, hu, ha, hf, if_false, Bool.false_eq_true]
    rfl
  refine ⟨ht, ?_, rfl⟩
  show ∀ e ∈ startSearchTrace c this, _
  rw [ht]
  intro e he
  simp only [List.mem_cons, List.mem_singleton, List.not_mem_nil, or_false] at he
  rcases he with rfl | rfl | rfl <;> exact ⟨rfl, rfl⟩

theorem startSearch_index_build_failed_witness :
    operatorOnly (sampleDialog "grace" [moduleA, moduleB]).m_searchOptionsArea.searchText
      = false ∧
    intBits 0x4000 &&& (QMessageBox_Yes ||| QMessageBox_Default) ≠ 0 ∧
    ((CSearchDialog.startSearch (sampleCollaborators 0x4000 false (.ok sampleResults))
        (sampleDialog "grace" [moduleA, moduleB])).trace =
      [.addToHistory (sampleDialog "grace" [moduleA, moduleB]).m_searchOptionsArea.searchText,
       consentPrompt (sampleCollaborators 0x4000 false (.ok sampleResults))
         ((sampleDialog "grace" [moduleA, moduleB]).modules.filter (fun m => !m.hasIndex)),
       .indexAllModules
         ((sampleDialog "grace" [moduleA, moduleB]).modules.filter (fun m => !m.hasIndex))] ∧
     (∀ e ∈ (CSearchDialog.startSearch (sampleCollaborators 0x4000 false (.ok sampleResults))
        (sampleDialog "grace" [moduleA, moduleB])).trace,
      e.isSearch = false ∧ e.isOutcome = false) ∧
     (CSearchDialog.startSearch (sampleCollaborators 0x4000 false (.ok sampleResults))
        (sampleDialog "grace" [moduleA, moduleB])).result = .ok ()) :=
  ⟨by decide, by decide,
   startSearch_index_build_failed (sampleCollaborators 0x4000 false (.ok sampleResults))
     (sampleDialog "grace" [moduleA, moduleB]) 0x4000 (by decide) ⟨moduleB, by decide, rfl⟩
     (fun _ _ _ _ => rfl) (by decide) rfl⟩

/-- C5, the claim as stated fails: with the answer `QMessageBox::Yes` and an
index build that reports failure, `startSearch` makes three calls, the history
entry, the prompt and the index build, and none of them is a warning. -/
theorem startSearch_build_failure_not_reported :
    (sampleCollaborators 0x4000 false (.ok sampleResults)).indexAllModules [moduleB] = false ∧
    (CSearchDialog.startSearch (sampleCollaborators 0x4000 false (.ok sampleResults))
        (sampleDialog "grace" [moduleA, moduleB])).trace =
      [.addToHistory "grace",
       consentPrompt (sampleCollaborators 0x4000 false (.ok sampleResults)) [moduleB],
       .indexAllModules [moduleB]] ∧
    (CSearchDialog.startSearch (sampleCollaborators 0x4000 false (.ok sampleResults))
        (sampleDialog "grace" [moduleA, moduleB])).trace.filter Event.isShowWarning = [] :=
  ⟨rfl, rfl, rfl⟩

/-- C6: whenever `startSearch` calls the search engine and the engine returns
a result set `r`, exactly one call ends the search for the user: the reset of
the result area if `r` is empty, and never `setSearchResult`; `setSearchResult`
with `r` if `r` is not empty, and never the reset; in neither case a warning. -/
theorem startSearch_delivers_result (c : Collaborators) (this : CSearchDialog)
    (t : QString) (ms : BtConstModuleList) (s : ListKey) (r : Results)
    (hcall : Event.search t ms s ∈ (CSearchDialog.startSearch c this).trace)
    (hret : c.search t ms s = .ok r) :
    (CSearchDialog.startSearch c this).trace.filter Event.isOutcome =
      [if r.isEmpty then .resultAreaReset else .setSearchResult r] := by
  rw [startSearch_run] at hcall ⊢
  obtain ⟨_, ⟨rfl, rfl, rfl⟩, ht⟩ := search_mem_startSearchTrace c this t ms s hcall
  show (startSearchTrace c this).filter Event.isOutcome = _
  rw [ht, executeTrace_ok c this r hret, List.filter_cons, List.filter_append,
    consentTrace_filter_isOutcome]
  cases r <;> simp [Event.isOutcome]

theorem startSearch_delivers_result_witness :
    Event.search "grace" [moduleA, moduleB] [] ∈
      (CSearchDialog.startSearch (sampleCollaborators 0x4000 true (.ok sampleResults))
        (sampleDialog "grace" [moduleA, moduleB])).trace ∧
    (sampleCollaborators 0x4000 true (.ok sampleResults)).search "grace" [moduleA, moduleB] []
      = .ok sampleResults ∧
    (CSearchDialog.startSearch (sampleCollaborators 0x4000 true (.ok sampleResults))
        (sampleDialog "grace" [moduleA, moduleB])).trace.filter Event.isOutcome =
      [.setSearchResult sampleResults] :=
  ⟨by decide, rfl,
   startSearch_delivers_result (sampleCollaborators 0x4000 true (.ok sampleResults))
     (sampleDialog "grace" [moduleA, moduleB]) "grace" [moduleA, moduleB] [] sampleResults
     (by decide) rfl⟩

/-- C7: whenever `startSearch` calls the search engine and the engine throws,
`startSearch` still returns to its caller, the one call that ends the search for
the user is a warning whose reason is the text of `what()` of the exception, or
the translation of `<UNKNOWN EXCEPTION>` for a fault that is no `std::exception`,
and neither `setSearchResult` nor the reset of the result area is called. -/
theorem startSearch_catches_fault (c : Collaborators) (this : CSearchDialog)
    (t : QString) (ms : BtConstModuleList) (s : ListKey) (f : Fault)
    (hcall : Event.search t ms s ∈ (CSearchDialog.startSearch c this).trace)
    (hthrow : c.search t ms s = .error f) :
    (CSearchDialog.startSearch c this).result = .ok () ∧
    (CSearchDialog.startSearch c this).trace.filter Event.isOutcome =
      [.showWarning (c.tr "Search aborted")
        (c.tr "An internal error occurred while executing your search:<br/><br/>%1")
        (match f with
         | .stdException what => what
         | .other => c.tr "<UNKNOWN EXCEPTION>")] := by
  rw [startSearch_run] at hcall ⊢
  obtain ⟨_, ⟨rfl, rfl, rfl⟩, ht⟩ := search_mem_startSearchTrace c this t ms s hcall
  refine ⟨rfl, ?_⟩
  show (startSearchTrace c this).filter Event.isOutcome = _
  rw [ht, executeTrace_error c this f hthrow, List.filter_cons, List.filter_append,
    consentTrace_filter_isOutcome]
  cases f <;> simp [Event.isOutcome, faultReason]

theorem startSearch_catches_fault_witness :
    Event.search "grace" [moduleA] [] ∈
      (CSearchDialog.startSearch (sampleCollaborators 0 true (.error .other))
        (sampleDialog "grace" [moduleA])).trace ∧
    (sampleCollaborators 0 true (.error .other)).search "grace" [moduleA] []
      = .error .other ∧
    ((CSearchDialog.startSearch (sampleCollaborators 0 true (.error .other))
        (sampleDialog "grace" [moduleA])).result = .ok () ∧
     (CSearchDialog.startSearch (sampleCollaborators 0 true (.error .other))
        (sampleDialog "grace" [moduleA])).trace.filter Event.isOutcome =
      [.showWarning "Search aborted"
        "An internal error occurred while executing your search:<br/><br/>%1"
        "<UNKNOWN EXCEPTION>"]) :=
  ⟨by decide, rfl,
   startSearch_catches_fault (sampleCollaborators 0 true (.error .other))
     (sampleDialog "grace" [moduleA]) "grace" [moduleA] [] .other (by decide) rfl⟩

/-- C9: whenever `startSearch` calls the search engine, it calls it once, with
the text that `prepareSearchText` makes of the whole search text of the dialog,
reserved words included, with the whole module list of the dialog in its order,
and with the search scope of the dialog. -/
theorem startSearch_engine_arguments (c : Collaborators) (this : CSearchDialog)
    (hcall : ∃ e ∈ (CSearchDialog.startSearch c this).trace, e.isSearch = true) :
    (CSearchDialog.startSearch c this).trace.filter Event.isSearch =
      [.search
        (c.prepareSearchText this.m_searchOptionsArea.searchText
          this.m_searchOptionsArea.searchType)
        this.m_searchOptionsArea.modules
        this.m_searchOptionsArea.searchScope] := by
  rw [startSearch_run] at hcall ⊢
  obtain ⟨e, he, hs⟩ := hcall
  cases e <;> simp [Event.isSearch] at hs
  obtain ⟨_, _, ht⟩ := search_mem_startSearchTrace c this _ _ _ he
  show (startSearchTrace c this).filter Event.isSearch = _
  rw [ht, List.filter_cons, List.filter_append, consentTrace_filter_isSearch,
    executeTrace_filter_isSearch]
  rfl

theorem startSearch_engine_arguments_witness :
    (∃ e ∈ (CSearchDialog.startSearch (sampleCollaborators 0x4000 true (.ok sampleResults))
        (sampleDialog "grace" [moduleA, moduleB])).trace, e.isSearch = true) ∧
    (CSearchDialog.startSearch (sampleCollaborators 0x4000 true (.ok sampleResults))
        (sampleDialog "grace" [moduleA, moduleB])).trace.filter Event.isSearch =
      [.search "grace" [moduleA, moduleB] []] :=
  ⟨⟨.search "grace" [moduleA, moduleB] [], by decide, rfl⟩,
   startSearch_engine_arguments (sampleCollaborators 0x4000 true (.ok sampleResults))
     (sampleDialog "grace" [moduleA, moduleB])
     ⟨.search "grace" [moduleA, moduleB] [], by decide, rfl⟩⟩

/-- C10: `openDialog` always returns; its calls are, in this order, the reset of
the dialog, the modules set or, for an empty module list, the module selector
shown, the search text set, the window shown if it was hidden, a run of
`startSearch` if and only if the module list is not empty and the search text
given is not empty, and the window raised and activated.  With an empty module
list that is the reset, the module selector, the search text and the window
calls: no search and no warning. -/
theorem openDialog_calls (c : Collaborators) (m_staticDialog : Option CSearchDialog)
    (modules : BtConstModuleList) (searchText : QString) :
    (CSearchDialog.openDialog c m_staticDialog modules searchText).result
      = .ok (openDialogState c m_staticDialog modules searchText) ∧
    (CSearchDialog.openDialog c m_staticDialog modules searchText).trace =
      [.optionsAreaReset, .resultAreaReset,
       if modules = [] then .chooseModules else .setModules modules,
       .setSearchText searchText] ++
      (if (openedDialog c m_staticDialog).isHidden then [.showWindow] else []) ++
      (if modules ≠ [] ∧ QString_isEmpty searchText = false then
         (CSearchDialog.startSearch c
           (openDialogState c m_staticDialog modules searchText)).trace
       else []) ++
      [.raise, .activateWindow] ∧
    (CSearchDialog.openDialog c m_staticDialog [] searchText).trace =
      [.optionsAreaReset, .resultAreaReset, .chooseModules, .setSearchText searchText] ++
      (if (openedDialog c m_staticDialog).isHidden then [.showWindow] else []) ++
      [.raise, .activateWindow] := by
  rw [openDialog_run, openDialog_run, startSearch_run]
  refine ⟨rfl, ?_, ?_⟩
  · cases modules <;> cases ht : QString_isEmpty searchText <;> simp
  · simp

/-- C11: every run of `startSearch` that goes on to the query, that is, with a
search text that is not operator-only and with all indices there or, where some
were missing, consent given and the build completed, returns to its caller
having made exactly one call among `setSearchResult`, the reset of the result
area and the warning; it disables the dialog once and enables it once after
that, and the enabling and the arrow cursor are its last two calls. -/
theorem startSearch_one_terminal_outcome (c : Collaborators) (this : CSearchDialog)
    (hq : operatorOnly this.m_searchOptionsArea.searchText = false)
    (hidx : (∀ m ∈ this.modules, m.hasIndex = true) ∨
      (intBits (consentAnswer c (this.modules.filter (fun m => !m.hasIndex)))
          &&& (QMessageBox_Yes ||| QMessageBox_Default) ≠ 0 ∧
        c.indexAllModules (this.modules.filter (fun m => !m.hasIndex)) = true)) :
    ((CSearchDialog.startSearch c this).trace.filter Event.isOutcome).length = 1 ∧
    (CSearchDialog.startSearch c this).trace.filter Event.isSetEnabled
      = [.setEnabled false, .setEnabled true] ∧
    (∃ earlier, (CSearchDialog.startSearch c this).trace
      = earlier ++ [.setEnabled true, .setCursor .ArrowCursor]) ∧
    (CSearchDialog.startSearch c this).result = .ok () := by
  rw [startSearch_run]
  have hidx2 : unindexed this.modules = [] ∨
      (intBits (consentAnswer c (unindexed this.modules))
          &&& (QMessageBox_Yes ||| QMessageBox_Default) ≠ 0 ∧
        c.indexAllModules (unindexed this.modules) = true) := by
    rcases hidx with h | ⟨hb, hi⟩
    · exact Or.inl (unindexed_eq_nil this.modules h)
    · exact Or.inr ⟨hb, hi⟩
  have ht := startSearchTrace_executes c this hq hidx2
  refine ⟨?_, ?_, ?_, rfl⟩
  · show ((startSearchTrace c this).filter Event.isOutcome).length = 1
    rw [ht, List.filter_cons, List.filter_append, consentTrace_filter_isOutcome]
    simpa [Event.isOutcome] using executeTrace_filter_isOutcome_length c this
  · show (startSearchTrace c this).filter Event.isSetEnabled = _
    rw [ht, List.filter_cons, List.filter_append, consentTrace_filter_isSetEnabled,
      executeTrace_filter_isSetEnabled]
    rfl
  · obtain ⟨earlier, he⟩ := executeTrace_ends_enabled c this
    refine ⟨.addToHistory this.m_searchOptionsArea.searchText ::
      (consentTrace c this ++ earlier), ?_⟩
    show startSearchTrace c this = _
    rw [ht, he]
    simp

theorem startSearch_one_terminal_outcome_witness :
    operatorOnly (sampleDialog "grace" [moduleA, moduleB]).m_searchOptionsArea.searchText
      = false ∧
    (intBits (consentAnswer
          (sampleCollaborators 0x4000 true (.error (.stdException "index corrupt")))
          ((sampleDialog "grace" [moduleA, moduleB]).modules.filter (fun m => !m.hasIndex)))
        &&& (QMessageBox_Yes ||| QMessageBox_Default) ≠ 0 ∧
      (sampleCollaborators 0x4000 true (.error (.stdException "index corrupt"))).indexAllModules
        ((sampleDialog "grace" [moduleA, moduleB]).modules.filter (fun m => !m.hasIndex))
        = true) ∧
    (((CSearchDialog.startSearch
          (sampleCollaborators 0x4000 true (.error (.stdException "index corrupt")))
          (sampleDialog "grace" [moduleA, moduleB])).trace.filter Event.isOutcome).length = 1 ∧
     (CSearchDialog.startSearch
          (sampleCollaborators 0x4000 true (.error (.stdException "index corrupt")))
          (sampleDialog "grace" [moduleA, moduleB])).trace.filter Event.isSetEnabled
        = [.setEnabled false, .setEnabled true] ∧
     (∃ earlier, (CSearchDialog.startSearch
          (sampleCollaborators 0x4000 true (.error (.stdException "index corrupt")))
          (sampleDialog "grace" [moduleA, moduleB])).trace
        = earlier ++ [.setEnabled true, .setCursor .ArrowCursor]) ∧
     (CSearchDialog.startSearch
          (sampleCollaborators 0x4000 true (.error (.stdException "index corrupt")))
          (sampleDialog "grace" [moduleA, moduleB])).result = .ok ()) :=
  ⟨by decide, ⟨by decide, rfl⟩,
   startSearch_one_terminal_outcome
     (sampleCollaborators 0x4000 true (.error (.stdException "index corrupt")))
     (sampleDialog "grace" [moduleA, moduleB]) (by decide) (Or.inr ⟨by decide, rfl⟩)⟩

end Search
